import Mathlib

/-!
Verification of the galaxy-catalog filtering and numeric-coercion utilities
(`filter_data`, `clean_data`, `safe_to_numeric` in the Dades modules).

Tables are shallowly embedded: a `DataFrame` carries an ordered schema
(`cols`) and a list of rows; a row is an association list from column names
to rational values.  Rationals stand in for the numeric column entries: every
comparison the filter makes is exact, and the rational literals `0.4`, `1.5`,
`0.05`, `0.1`, `0.5` reproduce the source constants exactly.  A missing
column access is modelled as an `Except.error` carrying the offending column
name, matching the pandas `KeyError` the source surfaces.
-/

/-- A catalog row: named rational fields, in column order. -/
abbrev Row := List (String × ℚ)

/-- Field access `row[c]`.  Under the schema check performed by `filter_data`
the default is never consulted for a required column. -/
def Row.get (r : Row) (c : String) : ℚ := (r.lookup c).getD 0

/-- A table: an ordered schema and an ordered list of rows. -/
structure DataFrame where
  cols : List String
  rows : List Row
deriving DecidableEq

/-- `cs.all` membership check: does the table declare every column in `cs`? -/
def DataFrame.hasCols (df : DataFrame) (cs : List String) : Bool :=
  cs.all (fun c => df.cols.contains c)

/-- The columns read while building the mask in `filter_data` /
`clean_data`, in source access order. -/
def maskCols : List String :=
  ["modelMag_u", "modelMag_g", "modelMag_r", "modelMag_i", "modelMag_z",
   "modelMagErr_u", "modelMagErr_g", "modelMagErr_r", "modelMagErr_i", "modelMagErr_z",
   "p_cs_debiased", "p_el_debiased", "petroR90_r"]

/-- `cols_to_keep` from the source: identifiers, position, morphology
probabilities and class scores, the two size measures, the five model
magnitudes and the five extinction values. -/
def cols_to_keep : List String :=
  ["specobjid", "objid", "ra", "dec",
   "p_el_debiased", "p_cs_debiased", "spiral", "elliptical"]
  ++ ["petroR50_r", "petroR90_r"]
  ++ ["modelMag_u", "modelMag_g", "modelMag_r", "modelMag_i", "modelMag_z"]
  ++ ["extinction_u", "extinction_g", "extinction_r", "extinction_i", "extinction_z"]

/-- Every column `filter_data` touches: the mask columns and the projection
columns. -/
def requiredCols : List String := maskCols ++ cols_to_keep

/-- The row mask of `filter_data` (bootcamp_session_4/src/mymodule.py and
Idea/module.py): magnitudes above the sentinel, band-specific error
ceilings, morphology confidence, and the medium-size band with its
asymmetric 1.5x upper-bound inflation. -/
def rowMask (r : Row) (confidence : ℚ) (size_range : ℚ × ℚ) : Bool :=
  decide (r.get "modelMag_u" > -30)
  && decide (r.get "modelMag_g" > -30)
  && decide (r.get "modelMag_r" > -30)
  && decide (r.get "modelMag_i" > -30)
  && decide (r.get "modelMag_z" > -30)
  && decide (r.get "modelMagErr_u" < 0.5)
  && decide (r.get "modelMagErr_g" < 0.05)
  && decide (r.get "modelMagErr_r" < 0.05)
  && decide (r.get "modelMagErr_i" < 0.05)
  && decide (r.get "modelMagErr_z" < 0.1)
  && (decide (r.get "p_cs_debiased" >= confidence) || decide (r.get "p_el_debiased" >= confidence))
  && decide (r.get "petroR90_r" * 2 / 0.4 > size_range.1)
  && decide (r.get "petroR90_r" * 2 * 1.5 / 0.4 < size_range.2)

/-- The row mask of `clean_data` (my_module.py and mymodule.py): the same
conditions with the confidence hard-coded to 0.9 and the two size
comparisons written in the opposite order, upper bound first. -/
def rowMaskClean (r : Row) : Bool :=
  decide (r.get "modelMag_u" > -30)
  && decide (r.get "modelMag_g" > -30)
  && decide (r.get "modelMag_r" > -30)
  && decide (r.get "modelMag_i" > -30)
  && decide (r.get "modelMag_z" > -30)
  && decide (r.get "modelMagErr_u" < 0.5)
  && decide (r.get "modelMagErr_g" < 0.05)
  && decide (r.get "modelMagErr_r" < 0.05)
  && decide (r.get "modelMagErr_i" < 0.05)
  && decide (r.get "modelMagErr_z" < 0.1)
  && (decide (r.get "p_cs_debiased" >= (0.9 : ℚ)) || decide (r.get "p_el_debiased" >= (0.9 : ℚ)))
  && decide (r.get "petroR90_r" * 2 * 1.5 / 0.4 < 64)
  && decide (r.get "petroR90_r" * 2 / 0.4 > 20)

/-- Projection of `df[mask][cols_to_keep]` on one selected row. -/
def projectRow (r : Row) : Row := cols_to_keep.map (fun c => (c, r.get c))

/-- `filter_data` from bootcamp_session_4/src/mymodule.py (identical in
Idea/module.py): access to an absent column surfaces the pandas `KeyError`
as `Except.error` naming the first missing column; otherwise the rows
passing the mask, in order, re-projected onto `cols_to_keep`. -/
def filter_data (df : DataFrame) (confidence : ℚ) (size_range : ℚ × ℚ) :
    Except String DataFrame :=
  match requiredCols.find? (fun c => !(df.cols.contains c)) with
  | some c => Except.error c
  | none =>
      Except.ok ⟨cols_to_keep,
        (df.rows.filter (fun r => rowMask r confidence size_range)).map projectRow⟩

/-- `clean_data` from my_module.py (identical in mymodule.py): the same
pipeline with `rowMaskClean`. -/
def clean_data (df : DataFrame) : Except String DataFrame :=
  match requiredCols.find? (fun c => !(df.cols.contains c)) with
  | some c => Except.error c
  | none =>
      Except.ok ⟨cols_to_keep, (df.rows.filter rowMaskClean).map projectRow⟩

/-- An entry of a raw column handed to `safe_to_numeric`: a string, an
integer (pandas int64) or a floating value (pandas float64, exact here). -/
inductive CVal where
  | s (v : String)
  | i (n : Int)
  | f (q : ℚ)
deriving DecidableEq

/-- Integer-typed entry? -/
def CVal.isInt : CVal → Bool
  | .i _ => true
  | _ => false

/-- Cast an integer entry to the floating representation (pandas upcast
when a column mixes integral and fractional parses). -/
def CVal.toFloat : CVal → CVal
  | .i n => .f n
  | v => v

/-- Negate a numeric entry. -/
def CVal.negVal : CVal → CVal
  | .i n => .i (-n)
  | .f q => .f (-q)
  | .s v => .s v

/-- Accumulate a run of decimal digits; `none` on any non-digit. -/
def parseDigitsAux : List Char → Nat → Option Nat
  | [], acc => some acc
  | c :: cs, acc =>
      if c.isDigit then parseDigitsAux cs (acc * 10 + (c.toNat - 48)) else none

/-- A nonempty run of decimal digits as a natural number. -/
def parseDigits : List Char → Option Nat
  | [] => none
  | cs => parseDigitsAux cs 0

/-- Modelled from the spec: the per-value number grammar of the external
`pandas.to_numeric` parser (the repository only calls it), per section 4.1:
"attempt to parse every value as a number (integer or floating point)",
"choosing integer representation if every value is integral".  An unsigned
numeral is digits, optionally followed by a point and digits; a plain
digit run is integral, a pointed numeral is floating. -/
def parseUnsigned (cs : List Char) : Option CVal :=
  match cs.span (fun c => !(decide (c = Char.ofNat 46))) with
  | (intCs, []) => (parseDigits intCs).map (fun n => CVal.i n)
  | (intCs, _ :: fracCs) =>
      match parseDigits intCs, parseDigits fracCs with
      | some n, some m =>
          some (CVal.f ((n : ℚ) + (m : ℚ) / (10 : ℚ) ^ fracCs.length))
      | _, _ => none

/-- Modelled from the spec: a signed numeral is an unsigned numeral with an
optional leading minus sign. -/
def parseNumString (s : String) : Option CVal :=
  match s.toList with
  | c :: cs =>
      if c = Char.ofNat 45 then (parseUnsigned cs).map CVal.negVal
      else parseUnsigned (c :: cs)
  | [] => none

/-- Parse one column entry: numeric entries already parse as themselves,
strings go through the numeral grammar. -/
def parseVal : CVal → Option CVal
  | .i n => some (.i n)
  | .f q => some (.f q)
  | .s v => parseNumString v

/-- Parse the entire column; `none` as soon as any entry fails, mirroring
`pd.to_numeric(col, errors="raise")`. -/
def parseAll : List CVal → Option (List CVal)
  | [] => some []
  | v :: vs =>
      match parseVal v, parseAll vs with
      | some w, some ws => some (w :: ws)
      | _, _ => none

/-- `pd.to_numeric(col, errors="raise")` on a column: an error when any
entry fails to parse, otherwise the parsed entries, upcast to floating
representation unless every parse is integral. -/
def to_numeric_strict (col : List CVal) : Except String (List CVal) :=
  match parseAll col with
  | none => Except.error "ValueError"
  | some ws => Except.ok (if ws.all CVal.isInt then ws else ws.map CVal.toFloat)

/-- `safe_to_numeric` from bootcamp_session_4/src/mymodule.py and
my_module.py: the try/except wrapper that swallows the parse error and
leaves the column unchanged. -/
def safe_to_numeric (col : List CVal) : List CVal :=
  match to_numeric_strict col with
  | Except.error _ => col
  | Except.ok ws => ws

/-- The docstring example row of `filter_data`: all quality cuts pass and
`petroR90_r = 5.0` gives diameter `25` inside the default band. -/
def exampleRow : Row :=
  [("modelMag_u", 20), ("modelMag_g", 19), ("modelMag_r", 18),
   ("modelMag_i", 18), ("modelMag_z", 17),
   ("modelMagErr_u", 0.4), ("modelMagErr_g", 0.04), ("modelMagErr_r", 0.04),
   ("modelMagErr_i", 0.04), ("modelMagErr_z", 0.09),
   ("p_cs_debiased", 0.9), ("p_el_debiased", 0.1),
   ("spiral", 1), ("elliptical", 0),
   ("petroR50_r", 3), ("petroR90_r", 5),
   ("specobjid", 1), ("objid", 2), ("ra", 180), ("dec", 0),
   ("extinction_u", 0.1), ("extinction_g", 0.1), ("extinction_r", 0.1),
   ("extinction_i", 0.1), ("extinction_z", 0.1)]

/-- The same row with `petroR90_r = 15.0`: diameter `75` exceeds the upper
bound of the default band. -/
def exampleRowBig : Row :=
  [("modelMag_u", 20), ("modelMag_g", 19), ("modelMag_r", 18),
   ("modelMag_i", 18), ("modelMag_z", 17),
   ("modelMagErr_u", 0.4), ("modelMagErr_g", 0.04), ("modelMagErr_r", 0.04),
   ("modelMagErr_i", 0.04), ("modelMagErr_z", 0.09),
   ("p_cs_debiased", 0.9), ("p_el_debiased", 0.1),
   ("spiral", 1), ("elliptical", 0),
   ("petroR50_r", 3), ("petroR90_r", 15),
   ("specobjid", 1), ("objid", 2), ("ra", 180), ("dec", 0),
   ("extinction_u", 0.1), ("extinction_g", 0.1), ("extinction_r", 0.1),
   ("extinction_i", 0.1), ("extinction_z", 0.1)]

/-- Schema of the example rows (insertion order of the docstring example). -/
def exampleCols : List String := exampleRow.map Prod.fst

/-- One-row example table hitting every quality cut. -/
def exampleDF : DataFrame := ⟨exampleCols, [exampleRow]⟩

/-- One-row example table whose row is too large for the size band. -/
def exampleDFBig : DataFrame := ⟨exampleCols, [exampleRowBig]⟩

/-- The table `filter_data` returns on `exampleDF` with the defaults. -/
def exampleOut : DataFrame := ⟨cols_to_keep, [projectRow exampleRow]⟩

/-! ### General lemmas about the embedding -/

/-- When every required column is declared, the missing-column scan of
`filter_data` finds nothing. -/
theorem find?_missing_eq_none {df : DataFrame} (h : df.hasCols requiredCols = true) :
    requiredCols.find? (fun c => !(df.cols.contains c)) = none := by
  rw [List.find?_eq_none]
  intro c hc
  have h2 := (List.all_eq_true.mp h) c hc
  simpa using h2

/-- Success characterisation of `filter_data`: the schema scan passed and
the output is the masked, re-projected row list under the fixed schema. -/
theorem filter_data_ok_iff {df : DataFrame} {confidence : ℚ} {size_range : ℚ × ℚ}
    {out : DataFrame} :
    filter_data df confidence size_range = Except.ok out ↔
      requiredCols.find? (fun c => !(df.cols.contains c)) = none ∧
      out = ⟨cols_to_keep,
        (df.rows.filter (fun r => rowMask r confidence size_range)).map projectRow⟩ := by
  unfold filter_data
  cases hf : requiredCols.find? (fun c => !(df.cols.contains c)) with
  | none => simp [eq_comm]
  | some c => simp

/-- Each output row of a successful `filter_data` call is the projection of
an input row that passes the mask. -/
theorem mem_rows_of_ok {df : DataFrame} {confidence : ℚ} {size_range : ℚ × ℚ}
    {out : DataFrame} {r' : Row}
    (h : filter_data df confidence size_range = Except.ok out) (hr : r' ∈ out.rows) :
    ∃ r, r ∈ df.rows ∧ rowMask r confidence size_range = true ∧ r' = projectRow r := by
  obtain ⟨-, rfl⟩ := filter_data_ok_iff.mp h
  simp only [List.mem_map] at hr
  obtain ⟨r, hrmem, rfl⟩ := hr
  rw [List.mem_filter] at hrmem
  exact ⟨r, hrmem.1, hrmem.2, rfl⟩

/-- The mask, read back as the conjunction of the source conditions. -/
theorem rowMask_eq_true_iff {r : Row} {confidence : ℚ} {size_range : ℚ × ℚ} :
    rowMask r confidence size_range = true ↔
      (Row.get r "modelMag_u" > -30 ∧ Row.get r "modelMag_g" > -30 ∧
       Row.get r "modelMag_r" > -30 ∧ Row.get r "modelMag_i" > -30 ∧
       Row.get r "modelMag_z" > -30) ∧
      (Row.get r "modelMagErr_u" < 0.5 ∧ Row.get r "modelMagErr_g" < 0.05 ∧
       Row.get r "modelMagErr_r" < 0.05 ∧ Row.get r "modelMagErr_i" < 0.05 ∧
       Row.get r "modelMagErr_z" < 0.1) ∧
      (Row.get r "p_cs_debiased" ≥ confidence ∨ Row.get r "p_el_debiased" ≥ confidence) ∧
      (Row.get r "petroR90_r" * 2 / 0.4 > size_range.1 ∧
       Row.get r "petroR90_r" * 2 * 1.5 / 0.4 < size_range.2) := by
  simp only [rowMask, Bool.and_eq_true, Bool.or_eq_true, decide_eq_true_eq]
  tauto

/-- Looking a listed column up in a tabulated association list recovers the
tabulated value. -/
theorem lookup_map_get (r : Row) (cs : List String) {c : String} (hc : c ∈ cs) :
    List.lookup c (cs.map (fun d => (d, Row.get r d))) = some (Row.get r c) := by
  induction cs with
  | nil => cases hc
  | cons d ds ih =>
      by_cases hdc : c = d
      · subst hdc; simp [List.lookup]
      · have hb : (c == d) = false := beq_false_of_ne hdc
        rcases List.mem_cons.mp hc with rfl | hmem
        · exact absurd rfl hdc
        · simp [List.lookup, hb, ih hmem]

/-- The value a projected row holds at each retained column is the value of
the original row there. -/
theorem projectRow_get {r : Row} {c : String} (hc : c ∈ cols_to_keep) :
    Row.get (projectRow r) c = Row.get r c := by
  show (List.lookup c (cols_to_keep.map (fun d => (d, Row.get r d)))).getD 0 = Row.get r c
  rw [lookup_map_get r cols_to_keep hc]
  rfl

/-- A fully parsed column has the length of its source column. -/
theorem parseAll_length : ∀ {col ws : List CVal}, parseAll col = some ws → ws.length = col.length
  | [], _, h => by
      simp only [parseAll] at h
      cases h
      rfl
  | v :: vs, ws, h => by
      simp only [parseAll] at h
      cases hv : parseVal v with
      | none => rw [hv] at h; cases h
      | some w =>
          rw [hv] at h
          cases hvs : parseAll vs with
          | none => rw [hvs] at h; cases h
          | some ws0 =>
              rw [hvs] at h
              cases h
              simp [parseAll_length hvs]

/-- One unparseable entry makes the whole-column parse fail. -/
theorem parseAll_eq_none_of_mem :
    ∀ {col : List CVal} {v : CVal}, v ∈ col → parseVal v = none → parseAll col = none
  | [], _, hv, _ => by cases hv
  | w :: vs, v, hv, hp => by
      rcases List.mem_cons.mp hv with rfl | hmem
      · simp [parseAll, hp]
      · simp only [parseAll]
        rw [parseAll_eq_none_of_mem hmem hp]
        cases parseVal w <;> rfl

/-- The `clean_data` mask agrees with the `filter_data` mask at the
hard-coded configuration `0.9, (20, 64)`: the swapped size comparisons
commute. -/
theorem rowMaskClean_eq_rowMask (r : Row) : rowMaskClean r = rowMask r 0.9 (20, 64) := by
  rw [Bool.eq_iff_iff]
  simp only [rowMask, rowMaskClean, Bool.and_eq_true, Bool.or_eq_true, decide_eq_true_eq]
  constructor <;> intro h <;> tauto

/-! ### Concrete evaluations -/

/-- The docstring example row passes every cut at the default configuration. -/
theorem eval_filter_exampleDF : filter_data exampleDF 0.8 (20, 64) = Except.ok exampleOut := by
  simp only [filter_data, exampleDF, exampleOut, requiredCols, maskCols, cols_to_keep,
    exampleCols, exampleRow, List.map, List.find?, List.contains, List.elem, String.reduceBEq,
    Bool.not_false, Bool.not_true, List.filter, rowMask, Row.get, List.lookup, Option.getD]
  norm_num

/-- The oversized variant is rejected: the filtered row list is empty. -/
theorem eval_filter_exampleDFBig :
    filter_data exampleDFBig 0.8 (20, 64) = Except.ok ⟨cols_to_keep, []⟩ := by
  simp only [filter_data, exampleDFBig, requiredCols, maskCols, cols_to_keep,
    exampleCols, exampleRowBig, List.map, List.find?, List.contains, List.elem, String.reduceBEq,
    Bool.not_false, Bool.not_true, List.filter, rowMask, Row.get, List.lookup, Option.getD]
  norm_num

/-- Re-filtering the filtered table trips over the dropped magnitude-error
columns: the scan reports `modelMagErr_u`. -/
theorem eval_filter_exampleOut :
    filter_data exampleOut 0.8 (20, 64) = Except.error "modelMagErr_u" := by
  simp only [filter_data, exampleOut, requiredCols, maskCols, cols_to_keep,
    List.find?, List.contains, List.elem, String.reduceBEq,
    Bool.not_false, Bool.not_true]

/-- Any table under the fixed projection schema is rejected at the scan,
whatever its rows and configuration. -/
theorem eval_filter_on_projected (rows : List Row) (confidence : ℚ) (size_range : ℚ × ℚ) :
    filter_data ⟨cols_to_keep, rows⟩ confidence size_range = Except.error "modelMagErr_u" := by
  simp only [filter_data, requiredCols, maskCols, cols_to_keep,
    List.find?, List.contains, List.elem, String.reduceBEq,
    Bool.not_false, Bool.not_true]

/-! ### The claims -/

/-- C1: Quality Filter postcondition.  Every row of a table returned by
`filter_data` is the projection of an input row on which all mask
conditions hold: the five model magnitudes exceed `-30` strictly, the five
magnitude errors sit strictly below their band ceilings `0.5, 0.05, 0.05,
0.05, 0.1`, and one of the two debiased probabilities reaches the
configured confidence. -/
theorem filter_data_quality_postcondition
    (df : DataFrame) (confidence : ℚ) (size_range : ℚ × ℚ) (out : DataFrame) (r' : Row)
    (_hcols : df.hasCols requiredCols = true)
    (h : filter_data df confidence size_range = Except.ok out)
    (hr : r' ∈ out.rows) :
    ∃ r, r ∈ df.rows ∧ r' = projectRow r ∧
      (Row.get r "modelMag_u" > -30 ∧ Row.get r "modelMag_g" > -30 ∧
       Row.get r "modelMag_r" > -30 ∧ Row.get r "modelMag_i" > -30 ∧
       Row.get r "modelMag_z" > -30) ∧
      (Row.get r "modelMagErr_u" < 0.5 ∧ Row.get r "modelMagErr_g" < 0.05 ∧
       Row.get r "modelMagErr_r" < 0.05 ∧ Row.get r "modelMagErr_i" < 0.05 ∧
       Row.get r "modelMagErr_z" < 0.1) ∧
      (Row.get r "p_cs_debiased" ≥ confidence ∨ Row.get r "p_el_debiased" ≥ confidence) := by
  obtain ⟨r, hmem, hmask, rfl⟩ := mem_rows_of_ok h hr
  have hm := rowMask_eq_true_iff.mp hmask
  exact ⟨r, hmem, rfl, hm.1, hm.2.1, hm.2.2.1⟩

/-- C1 witness: the docstring example row instantiates the postcondition. -/
theorem filter_data_quality_postcondition_witness :
    ∃ r, r ∈ exampleDF.rows ∧ projectRow exampleRow = projectRow r ∧
      (Row.get r "modelMag_u" > -30 ∧ Row.get r "modelMag_g" > -30 ∧
       Row.get r "modelMag_r" > -30 ∧ Row.get r "modelMag_i" > -30 ∧
       Row.get r "modelMag_z" > -30) ∧
      (Row.get r "modelMagErr_u" < 0.5 ∧ Row.get r "modelMagErr_g" < 0.05 ∧
       Row.get r "modelMagErr_r" < 0.05 ∧ Row.get r "modelMagErr_i" < 0.05 ∧
       Row.get r "modelMagErr_z" < 0.1) ∧
      (Row.get r "p_cs_debiased" ≥ (0.8 : ℚ) ∨ Row.get r "p_el_debiased" ≥ (0.8 : ℚ)) :=
  filter_data_quality_postcondition exampleDF 0.8 (20, 64) exampleOut (projectRow exampleRow)
    (by decide) eval_filter_exampleDF (by simp [exampleOut])

/-- C2: asymmetric size band.  A row is retained only if, for the derived
diameter `d = petroR90_r * 2 / 0.4`, both `d > size_range.1` and
`d * 1.5 < size_range.2` hold; the docstring example row with
`petroR90_r = 5` (diameter `25`) is retained, and the identical row with
`petroR90_r = 15` (diameter `75`) is rejected at the default
configuration `(20, 64)`. -/
theorem filter_data_size_band :
    (∀ (df : DataFrame) (confidence lo hi : ℚ) (out : DataFrame) (r' : Row),
        df.hasCols requiredCols = true →
        filter_data df confidence (lo, hi) = Except.ok out → r' ∈ out.rows →
        ∃ r, r ∈ df.rows ∧ r' = projectRow r ∧
          Row.get r "petroR90_r" * 2 / 0.4 > lo ∧
          Row.get r "petroR90_r" * 2 / 0.4 * 1.5 < hi)
    ∧ (Row.get exampleRow "petroR90_r" = 5 ∧
       filter_data exampleDF 0.8 (20, 64) = Except.ok exampleOut ∧
       exampleOut.rows = [projectRow exampleRow])
    ∧ (Row.get exampleRowBig "petroR90_r" = 15 ∧
       filter_data exampleDFBig 0.8 (20, 64) = Except.ok ⟨cols_to_keep, []⟩) := by
  refine ⟨?_, ⟨?_, eval_filter_exampleDF, rfl⟩, ⟨?_, eval_filter_exampleDFBig⟩⟩
  · intro df confidence lo hi out r' hcols h hr
    obtain ⟨r, hmem, hmask, rfl⟩ := mem_rows_of_ok h hr
    have hm := rowMask_eq_true_iff.mp hmask
    have h1 : Row.get r "petroR90_r" * 2 / 0.4 > lo := hm.2.2.2.1
    have h2 : Row.get r "petroR90_r" * 2 * 1.5 / 0.4 < hi := hm.2.2.2.2
    refine ⟨r, hmem, rfl, h1, ?_⟩
    have heq : Row.get r "petroR90_r" * 2 / 0.4 * 1.5
        = Row.get r "petroR90_r" * 2 * 1.5 / 0.4 := by ring
    rw [heq]
    exact h2
  · simp only [Row.get, exampleRow, List.lookup, String.reduceBEq, Option.getD]
  · simp only [Row.get, exampleRowBig, List.lookup, String.reduceBEq, Option.getD]

/-- C2 witness: the general size-band bound instantiated on the example
table at the default configuration. -/
theorem filter_data_size_band_witness :
    ∃ r, r ∈ exampleDF.rows ∧ projectRow exampleRow = projectRow r ∧
      Row.get r "petroR90_r" * 2 / 0.4 > 20 ∧
      Row.get r "petroR90_r" * 2 / 0.4 * 1.5 < 64 :=
  filter_data_size_band.1 exampleDF 0.8 20 64 exampleOut (projectRow exampleRow)
    (by decide) eval_filter_exampleDF (by simp [exampleOut])

/-- C3: numeric coercion is all-or-nothing and never raises.  A column with
any unparseable entry comes back unchanged, and in every case the
try/except wrapper either passes on a successful strict conversion or
returns the original column — the strict conversion's error never reaches
the caller. -/
theorem safe_to_numeric_all_or_nothing :
    (∀ (col : List CVal) (v : CVal), v ∈ col → parseVal v = none →
        safe_to_numeric col = col)
    ∧ (∀ col : List CVal,
        (to_numeric_strict col).isOk = true ∨ safe_to_numeric col = col) := by
  constructor
  · intro col v hv hp
    have h := parseAll_eq_none_of_mem hv hp
    unfold safe_to_numeric to_numeric_strict
    rw [h]
  · intro col
    unfold safe_to_numeric
    cases h : to_numeric_strict col with
    | error e => right; rfl
    | ok ws => left; rfl

/-- C3 witness: the spec scenario column with entries `1` and `x` is
returned unchanged, and the wrapper surfaces no error on it. -/
theorem safe_to_numeric_all_or_nothing_witness :
    safe_to_numeric [CVal.s "1", CVal.s "x"] = [CVal.s "1", CVal.s "x"]
    ∧ ((to_numeric_strict [CVal.s "1", CVal.s "x"]).isOk = true ∨
        safe_to_numeric [CVal.s "1", CVal.s "x"] = [CVal.s "1", CVal.s "x"]) :=
  ⟨safe_to_numeric_all_or_nothing.1 [CVal.s "1", CVal.s "x"] (CVal.s "x")
      (by decide) (by decide),
   safe_to_numeric_all_or_nothing.2 [CVal.s "1", CVal.s "x"]⟩

/-- C4 counterexample: the fixed projection has 20 columns, not 18, on a
concrete successful call. -/
theorem filter_data_projection_cex :
    filter_data exampleDF 0.8 (20, 64) = Except.ok exampleOut
    ∧ exampleOut.cols.length = 20 ∧ exampleOut.cols.length ≠ 18 :=
  ⟨eval_filter_exampleDF, by decide, by decide⟩

/-- C4 (amended to the true column count): a successful `filter_data` call
always returns exactly the fixed ordered 20-column projection —
identifiers, position, morphology probabilities and class scores, the two
size measures, the five model magnitudes, the five extinction values —
whatever extra columns the input carried; the magnitude-error columns are
not retained. -/
theorem filter_data_fixed_projection
    (df : DataFrame) (confidence : ℚ) (size_range : ℚ × ℚ) (out : DataFrame)
    (_hcols : df.hasCols requiredCols = true)
    (h : filter_data df confidence size_range = Except.ok out) :
    out.cols =
      ["specobjid", "objid", "ra", "dec", "p_el_debiased", "p_cs_debiased",
       "spiral", "elliptical", "petroR50_r", "petroR90_r",
       "modelMag_u", "modelMag_g", "modelMag_r", "modelMag_i", "modelMag_z",
       "extinction_u", "extinction_g", "extinction_r", "extinction_i", "extinction_z"] := by
  obtain ⟨-, rfl⟩ := filter_data_ok_iff.mp h
  rfl

/-- C4 witness: the projection schema on the example table. -/
theorem filter_data_fixed_projection_witness :
    exampleOut.cols =
      ["specobjid", "objid", "ra", "dec", "p_el_debiased", "p_cs_debiased",
       "spiral", "elliptical", "petroR50_r", "petroR90_r",
       "modelMag_u", "modelMag_g", "modelMag_r", "modelMag_i", "modelMag_z",
       "extinction_u", "extinction_g", "extinction_r", "extinction_i", "extinction_z"] :=
  filter_data_fixed_projection exampleDF 0.8 (20, 64) exampleOut
    (by decide) eval_filter_exampleDF

/-- C5 counterexample: filtering is not idempotent.  On the example table
the first call succeeds, but applying `filter_data` to its own output
fails with the missing-column error for `modelMagErr_u` instead of
returning the same rows. -/
theorem filter_data_not_idempotent_cex :
    filter_data exampleDF 0.8 (20, 64) = Except.ok exampleOut
    ∧ filter_data exampleOut 0.8 (20, 64) = Except.error "modelMagErr_u" :=
  ⟨eval_filter_exampleDF, eval_filter_exampleOut⟩

/-- C5 (amended): a second application of `filter_data` to any table the
first application returned always fails with the missing-field error for
`modelMagErr_u`, because the projection drops the five magnitude-error
columns the mask needs. -/
theorem filter_data_second_application_fails
    (df : DataFrame) (confidence : ℚ) (size_range : ℚ × ℚ) (out : DataFrame)
    (h : filter_data df confidence size_range = Except.ok out)
    (confidence2 : ℚ) (size_range2 : ℚ × ℚ) :
    filter_data out confidence2 size_range2 = Except.error "modelMagErr_u" := by
  obtain ⟨-, rfl⟩ := filter_data_ok_iff.mp h
  exact eval_filter_on_projected _ _ _

/-- C5 witness: the amended statement on the example table, re-filtering
with a different configuration. -/
theorem filter_data_second_application_fails_witness :
    filter_data exampleOut 0.9 (10, 100) = Except.error "modelMagErr_u" :=
  filter_data_second_application_fails exampleDF 0.8 (20, 64) exampleOut
    eval_filter_exampleDF 0.9 (10, 100)

/-- C6: numeric coercion success branch.  When the whole column parses,
the result is the parsed entries, kept in integer representation when
every parse is integral and upcast to floating representation otherwise;
the spec scenario column `1, 2, 3` coerces to the integers `1, 2, 3`. -/
theorem safe_to_numeric_success :
    (∀ (col ws : List CVal), parseAll col = some ws → ws.all CVal.isInt = true →
        safe_to_numeric col = ws)
    ∧ (∀ (col ws : List CVal), parseAll col = some ws → ws.all CVal.isInt = false →
        safe_to_numeric col = ws.map CVal.toFloat)
    ∧ safe_to_numeric [CVal.s "1", CVal.s "2", CVal.s "3"]
        = [CVal.i 1, CVal.i 2, CVal.i 3] := by
  refine ⟨?_, ?_, by decide⟩
  · intro col ws h hint
    unfold safe_to_numeric to_numeric_strict
    rw [h]
    simp [hint]
  · intro col ws h hint
    unfold safe_to_numeric to_numeric_strict
    rw [h]
    simp [hint]

/-- C6 witness: the integral branch applied to the scenario column. -/
theorem safe_to_numeric_success_witness :
    safe_to_numeric [CVal.s "1", CVal.s "2", CVal.s "3"]
      = [CVal.i 1, CVal.i 2, CVal.i 3] :=
  safe_to_numeric_success.1 [CVal.s "1", CVal.s "2", CVal.s "3"]
    [CVal.i 1, CVal.i 2, CVal.i 3] (by decide) (by decide)

/-- C7: missing-column failure.  When any required column — mask column or
projection column — is absent from the input schema, `filter_data`
surfaces a missing-field error instead of returning a table. -/
theorem filter_data_missing_column
    (df : DataFrame) (confidence : ℚ) (size_range : ℚ × ℚ) (c : String)
    (hc : c ∈ requiredCols) (habs : df.cols.contains c = false) :
    ∃ e, filter_data df confidence size_range = Except.error e := by
  have hsome : (requiredCols.find? (fun d => !(df.cols.contains d))).isSome = true := by
    rw [List.find?_isSome]
    exact ⟨c, hc, by rw [habs]; rfl⟩
  obtain ⟨e, he⟩ := Option.isSome_iff_exists.mp hsome
  refine ⟨e, ?_⟩
  unfold filter_data
  rw [he]

/-- C7 witness: a table under the projection schema is missing
`modelMagErr_u`, and `filter_data` errors on it. -/
theorem filter_data_missing_column_witness :
    ∃ e, filter_data exampleOut 0.8 (20, 64) = Except.error e :=
  filter_data_missing_column exampleOut 0.8 (20, 64) "modelMagErr_u"
    (by decide) (by decide)

/-- C8: structural invariants.  The rows of a successful `filter_data`
output are the projections of a sublist of the input rows — original
relative order, no duplication — and projection does not alter the value
of any retained column; `safe_to_numeric` preserves the column length. -/
theorem structural_invariants :
    (∀ (df : DataFrame) (confidence : ℚ) (size_range : ℚ × ℚ) (out : DataFrame),
        df.hasCols requiredCols = true →
        filter_data df confidence size_range = Except.ok out →
        ∃ l : List Row, List.Sublist l df.rows ∧ out.rows = l.map projectRow ∧
          ∀ (r : Row) (c : String), c ∈ cols_to_keep →
            Row.get (projectRow r) c = Row.get r c)
    ∧ (∀ col : List CVal, (safe_to_numeric col).length = col.length) := by
  constructor
  · intro df confidence size_range out _hcols h
    obtain ⟨-, rfl⟩ := filter_data_ok_iff.mp h
    exact ⟨df.rows.filter (fun r => rowMask r confidence size_range),
      List.filter_sublist df.rows, rfl, fun r c hc => projectRow_get hc⟩
  · intro col
    unfold safe_to_numeric
    cases h : to_numeric_strict col with
    | error e => rfl
    | ok ws =>
        show ws.length = col.length
        unfold to_numeric_strict at h
        cases hp : parseAll col with
        | none => rw [hp] at h; cases h
        | some ws0 =>
            rw [hp] at h
            have hws : ws = if ws0.all CVal.isInt = true then ws0
                else ws0.map CVal.toFloat := (Except.ok.inj h).symm
            subst hws
            have hl := parseAll_length hp
            split <;> simp [hl]

/-- C8 witness: invariants instantiated on the example table and the
scenario column. -/
theorem structural_invariants_witness :
    (∃ l : List Row, List.Sublist l exampleDF.rows ∧ exampleOut.rows = l.map projectRow ∧
        ∀ (r : Row) (c : String), c ∈ cols_to_keep →
          Row.get (projectRow r) c = Row.get r c)
    ∧ (safe_to_numeric [CVal.s "1", CVal.s "2", CVal.s "3"]).length = 3 :=
  ⟨structural_invariants.1 exampleDF 0.8 (20, 64) exampleOut
      (by decide) eval_filter_exampleDF,
   structural_invariants.2 [CVal.s "1", CVal.s "2", CVal.s "3"]⟩

/-- C9: no configuration validation.  With every debiased probability of
the table in `[0, 1]` and a confidence strictly above `1`, `filter_data`
does not reject the configuration: it succeeds with an empty row list
under the fixed schema. -/
theorem filter_data_overconfidence_empty
    (df : DataFrame) (confidence lo hi : ℚ)
    (hcols : df.hasCols requiredCols = true)
    (hp : ∀ r ∈ df.rows,
      0 ≤ Row.get r "p_cs_debiased" ∧ Row.get r "p_cs_debiased" ≤ 1 ∧
      0 ≤ Row.get r "p_el_debiased" ∧ Row.get r "p_el_debiased" ≤ 1)
    (hconf : 1 < confidence) :
    filter_data df confidence (lo, hi) = Except.ok ⟨cols_to_keep, []⟩ := by
  rw [filter_data_ok_iff]
  refine ⟨find?_missing_eq_none hcols, ?_⟩
  have hnil : df.rows.filter (fun r => rowMask r confidence (lo, hi)) = [] := by
    rw [List.filter_eq_nil_iff]
    intro r hr hmask
    obtain ⟨-, -, hprob, -⟩ := rowMask_eq_true_iff.mp hmask
    obtain ⟨h0cs, h1cs, h0el, h1el⟩ := hp r hr
    rcases hprob with hcs | hel
    · linarith
    · linarith
  rw [hnil]
  rfl

/-- C9 witness: confidence `2` on the example table yields the empty
table without an error. -/
theorem filter_data_overconfidence_empty_witness :
    filter_data exampleDF 2 (20, 64) = Except.ok ⟨cols_to_keep, []⟩ :=
  filter_data_overconfidence_empty exampleDF 2 20 64 (by decide)
    (by
      intro r hr
      have hr1 : r = exampleRow := by simpa [exampleDF] using hr
      subst hr1
      refine ⟨?_, ?_, ?_, ?_⟩ <;>
        · simp only [Row.get, exampleRow, List.lookup, String.reduceBEq, Option.getD]
          norm_num)
    (by norm_num)

/-- C10: the duplicated `clean_data` implementations (my_module.py and
mymodule.py) compute exactly what `filter_data` computes at confidence
`0.9` and size range `(20, 64)`: the reordered size comparisons and the
hard-coded thresholds select the same rows and the same projection. -/
theorem clean_data_eq_filter_data
    (df : DataFrame) (_hcols : df.hasCols requiredCols = true) :
    clean_data df = filter_data df 0.9 (20, 64) := by
  unfold clean_data filter_data
  cases hf : requiredCols.find? (fun c => !(df.cols.contains c)) with
  | some c => rfl
  | none =>
      have hfilter : df.rows.filter rowMaskClean
          = df.rows.filter (fun r => rowMask r 0.9 (20, 64)) :=
        List.filter_congr (fun r _ => rowMaskClean_eq_rowMask r)
      rw [hfilter]

/-- C10 witness: the duplicate agrees with the parameterised filter on the
example table. -/
theorem clean_data_eq_filter_data_witness :
    clean_data exampleDF = filter_data exampleDF 0.9 (20, 64) :=
  clean_data_eq_filter_data exampleDF (by decide)
